import Mathlib

/-!
MasterMCU: the two GPIO demonstration programs.

A shallow embedding of `002led_button.c` (button polled in the main loop) and
`005button_interrupt.c` (button served by an external interrupt).

Both programs are straight-line configuration code followed by an endless loop.
They are embedded as functions on the log of calls the program has made so far:
every call of a driver function appends one record with the arguments the call
received.  The local variables of `main` are explicit values that are updated
field by field, in the order of the source.

The header `stm32f407xx.h` and the driver sources are not part of the two source
files; what the demos need from them is modelled below and marked as such.
-/

namespace MasterMCU

/-! ## What the demos use from `stm32f407xx.h` -/

/-- Modelled from the spec: the port identities of `stm32f407xx.h` (the header is
not among the sources).  The spec speaks of "one of several physical GPIO port
instances (e.g., port A, port D)"; the demos name `GPIOA` and `GPIOD`. -/
inductive Port where
  | GPIOA | GPIOB | GPIOC | GPIOD | GPIOE | GPIOF | GPIOG | GPIOH | GPIOI
  deriving DecidableEq, Repr

/-- Modelled from the spec: the pin modes of `stm32f407xx.h` ("input, output,
alternate-function, interrupt-rising, interrupt-falling, interrupt-both").  The
demos name `GPIO_MODE_INPUT`, `GPIO_MODE_OUT` and `GPIO_MODE_IT_FT`. -/
inductive Mode where
  | GPIO_MODE_INPUT | GPIO_MODE_OUT | GPIO_MODE_ALTFN
  | GPIO_MODE_IT_FT | GPIO_MODE_IT_RT | GPIO_MODE_IT_RFT
  deriving DecidableEq, Repr

/-- Modelled from the spec: the output types of `stm32f407xx.h` ("push-pull,
open-drain").  The demos name `GPIO_OP_TYPE_PP`. -/
inductive OPType where
  | GPIO_OP_TYPE_PP | GPIO_OP_TYPE_OD
  deriving DecidableEq, Repr

/-- Modelled from the spec: the speed classes of `stm32f407xx.h`.  The demos name
`GPIO_SPEED_FAST`. -/
inductive Speed where
  | GPIO_SPEED_LOW | GPIO_SPEED_MEDIUM | GPIO_SPEED_FAST | GPIO_SPEED_HIGH
  deriving DecidableEq, Repr

/-- Modelled from the spec: the pull resistor settings of `stm32f407xx.h` ("none,
pull-up, pull-down").  The demos name `GPIO_NO_PUPD` and `GPIO_PIN_PU`. -/
inductive PuPd where
  | GPIO_NO_PUPD | GPIO_PIN_PU | GPIO_PIN_PD
  deriving DecidableEq, Repr

/-- Modelled from the spec: the interrupt lines of `stm32f407xx.h` that serve the
pin numbers ("one line may multiplex several pin numbers").  The demo names
`IRQ_NO_EXTI5_9`. -/
inductive IRQNumber where
  | IRQ_NO_EXTI0 | IRQ_NO_EXTI1 | IRQ_NO_EXTI2 | IRQ_NO_EXTI3 | IRQ_NO_EXTI4
  | IRQ_NO_EXTI5_9 | IRQ_NO_EXTI10_15
  deriving DecidableEq, Repr

export Port (GPIOA GPIOD)
export Mode (GPIO_MODE_INPUT GPIO_MODE_OUT GPIO_MODE_IT_FT)
export OPType (GPIO_OP_TYPE_PP)
export Speed (GPIO_SPEED_FAST)
export PuPd (GPIO_NO_PUPD GPIO_PIN_PU)
export IRQNumber (IRQ_NO_EXTI5_9)

/-- Modelled from the spec: pin-number macro of `stm32f407xx.h`, pin 0 of a port
(pin numbers are 0 to 15). -/
def GPIO_PIN_N0_0 : Nat := 0

/-- Modelled from the spec: pin-number macro of `stm32f407xx.h`, pin 5 of a port. -/
def GPIO_PIN_N0_5 : Nat := 5

/-- Modelled from the spec: pin-number macro of `stm32f407xx.h`, pin 12 of a port. -/
def GPIO_PIN_N0_12 : Nat := 12

/-- Modelled from the spec: priority macro of `stm32f407xx.h`, priority 15. -/
def NVIC_IRQ_PRIO15 : Nat := 15

/-- Modelled from the spec: the macro `ENABLE` of `stm32f407xx.h` (`on: bool`). -/
def ENABLE : Bool := true

/-- Modelled from the spec: the macro `DISABLE` of `stm32f407xx.h`. -/
def DISABLE : Bool := false

/-- Modelled from the spec: the interrupt line that serves a pin number.  The
table is that of the macro names: line `EXTI5_9` (handler `EXTI9_5_IRQHandler`)
serves the pins 5 to 9, the pins 0 to 4 have a line each, the pins 10 to 15
share one. -/
def irqOfPin (pin : Nat) : Option IRQNumber :=
  if pin = 0 then some IRQNumber.IRQ_NO_EXTI0
  else if pin = 1 then some IRQNumber.IRQ_NO_EXTI1
  else if pin = 2 then some IRQNumber.IRQ_NO_EXTI2
  else if pin = 3 then some IRQNumber.IRQ_NO_EXTI3
  else if pin = 4 then some IRQNumber.IRQ_NO_EXTI4
  else if pin ≤ 9 then some IRQNumber.IRQ_NO_EXTI5_9
  else if pin ≤ 15 then some IRQNumber.IRQ_NO_EXTI10_15
  else none

/-! ## Memory cells of a local variable -/

/-- The content of one field of a local `GPIO_Handle_t`.  A local declared
without initialiser holds an indeterminate value until it is written; `memset`
with 0 writes zero bytes; an assignment writes the assigned value. -/
inductive Cell (α : Type) where
  | indeterminate
  | zeroed
  | set (a : α)
  deriving DecidableEq, Repr

/-- Whether the program has written the cell. -/
def Cell.definite {α : Type} : Cell α → Bool
  | Cell.indeterminate => false
  | Cell.zeroed => true
  | Cell.set _ => true

/-- The fields of `GPIO_PinConfig_t` that the demos access (the declaration is in
`stm32f407xx.h`). -/
structure GPIO_PinConfig_t where
  GPIO_PinNumber : Cell Nat
  GPIO_PinMode : Cell Mode
  GPIO_PinSpeed : Cell Speed
  GPIO_PinPuPdControl : Cell PuPd
  GPIO_PinOPType : Cell OPType
  deriving DecidableEq, Repr

/-- The fields of `GPIO_Handle_t` that the demos access. -/
structure GPIO_Handle_t where
  pGPIOx : Cell Port
  GPIO_PinConfig : GPIO_PinConfig_t
  deriving DecidableEq, Repr

/-- A handle as `GPIO_Handle_t GpioLed, GpioBtn;` declares it: no field written. -/
def GPIO_Handle_t.declared : GPIO_Handle_t :=
  { pGPIOx := Cell.indeterminate
    GPIO_PinConfig :=
      { GPIO_PinNumber := Cell.indeterminate
        GPIO_PinMode := Cell.indeterminate
        GPIO_PinSpeed := Cell.indeterminate
        GPIO_PinPuPdControl := Cell.indeterminate
        GPIO_PinOPType := Cell.indeterminate } }

/-- The effect of `memset(&h, 0, sizeof(h))`: every byte of the handle is zero. -/
def memset0 (_h : GPIO_Handle_t) : GPIO_Handle_t :=
  { pGPIOx := Cell.zeroed
    GPIO_PinConfig :=
      { GPIO_PinNumber := Cell.zeroed
        GPIO_PinMode := Cell.zeroed
        GPIO_PinSpeed := Cell.zeroed
        GPIO_PinPuPdControl := Cell.zeroed
        GPIO_PinOPType := Cell.zeroed } }

/-! ## The log of calls -/

/-- One call made by a demo program, with the arguments it received.  A call of
`GPIO_Init` records the handle its pointer argument points to, as it is at the
call; a call of `GPIO_ReadFromInputPin` records the value it returned; a call of
`delay` records how often its loop body ran. -/
inductive Call where
  | GPIO_PeriClockControl (pGPIOx : Port) (EnorDi : Bool)
  | GPIO_Init (pGPIOHandle : GPIO_Handle_t)
  | GPIO_ReadFromInputPin (pGPIOx : Port) (PinNumber : Nat) (ret : Nat)
  | GPIO_ToggleOutputPin (pGPIOx : Port) (PinNumber : Nat)
  | GPIO_IRQPriorityConfig (IRQNumber : IRQNumber) (IRQPriority : Nat)
  | GPIO_IRQInterruptConfig (IRQNumber : IRQNumber) (EnorDi : Bool)
  | GPIO_IRQHandling (PinNumber : Nat)
  | delay (iterations : Nat)
  deriving DecidableEq, Repr

/-- Whether a call is a call of a driver function (all but `delay`). -/
def Call.isDriver : Call → Bool
  | Call.delay _ => false
  | _ => true

/-- The driver calls of a log. -/
def driverCalls (log : List Call) : List Call := log.filter Call.isDriver

/-! ## `delay` (both files) -/

/-- The loop `for(uint32_t i = 0; i < 500000 / 2; i++);` from counter value `i`
on.  `n` counts the executions of the (empty) loop body, `wrapped` records
whether an increment of the 32-bit counter wrapped around.  Returns the final
counter, the count and the flag. -/
def delay_loop (i n : Nat) (wrapped : Bool) : Nat × Nat × Bool :=
  if i < 500000 / 2 then
    delay_loop ((i + 1) % 4294967296) (n + 1) (wrapped || decide (4294967296 ≤ i + 1))
  else (i, n, wrapped)
termination_by 500000 / 2 - i
decreasing_by
  simp_wf
  omega

/-- The function `void delay(void)`: runs the loop from `i = 0` and returns to the
caller.  The log gains the record of this call. -/
def delay (log : List Call) : List Call :=
  log ++ [Call.delay (delay_loop 0 0 false).2.1]

/-! ## `002led_button.c` -/

namespace LedButton

/-- The body of `while(1)` in `main`, once for each value in `rets`: the values
that the successive calls of `GPIO_ReadFromInputPin` return.  The log is that of
the program up to the end of these iterations. -/
def main_loop : List Nat → List Call → List Call
  | [], log => log
  | ret :: rets, log =>
    let log := log ++ [Call.GPIO_ReadFromInputPin GPIOA GPIO_PIN_N0_0 ret]
    if ret ≠ 0 then
      let log := delay log
      let log := log ++ [Call.GPIO_ToggleOutputPin GPIOD GPIO_PIN_N0_12]
      main_loop rets log
    else
      main_loop rets log

/-- The function `int main(void)` of `002led_button.c`, run through as many
iterations of its endless loop as `rets` has values. -/
def main (rets : List Nat) : List Call :=
  let log : List Call := []
  let GpioLed : GPIO_Handle_t := GPIO_Handle_t.declared
  let GpioBtn : GPIO_Handle_t := GPIO_Handle_t.declared
  let GpioLed := { GpioLed with pGPIOx := Cell.set GPIOD }
  let GpioLed := { GpioLed with GPIO_PinConfig.GPIO_PinNumber := Cell.set GPIO_PIN_N0_12 }
  let GpioLed := { GpioLed with GPIO_PinConfig.GPIO_PinMode := Cell.set GPIO_MODE_OUT }
  let GpioLed := { GpioLed with GPIO_PinConfig.GPIO_PinOPType := Cell.set GPIO_OP_TYPE_PP }
  let GpioLed := { GpioLed with GPIO_PinConfig.GPIO_PinSpeed := Cell.set GPIO_SPEED_FAST }
  let GpioLed := { GpioLed with GPIO_PinConfig.GPIO_PinPuPdControl := Cell.set GPIO_NO_PUPD }
  let log := log ++ [Call.GPIO_PeriClockControl GPIOD ENABLE]
  let log := log ++ [Call.GPIO_Init GpioLed]
  let GpioBtn := { GpioBtn with pGPIOx := Cell.set GPIOA }
  let GpioBtn := { GpioBtn with GPIO_PinConfig.GPIO_PinNumber := Cell.set GPIO_PIN_N0_0 }
  let GpioBtn := { GpioBtn with GPIO_PinConfig.GPIO_PinMode := Cell.set GPIO_MODE_INPUT }
  let GpioBtn := { GpioBtn with GPIO_PinConfig.GPIO_PinSpeed := Cell.set GPIO_SPEED_FAST }
  let GpioBtn := { GpioBtn with GPIO_PinConfig.GPIO_PinPuPdControl := Cell.set GPIO_NO_PUPD }
  let log := log ++ [Call.GPIO_PeriClockControl GPIOA ENABLE]
  let log := log ++ [Call.GPIO_Init GpioBtn]
  main_loop rets log

end LedButton

/-! ## `005button_interrupt.c` -/

namespace ButtonInterrupt

/-- The loop `while(1);` of `main`, `spins` times round: its body is empty. -/
def main_loop : Nat → List Call → List Call
  | 0, log => log
  | spins + 1, log => main_loop spins log

/-- The function `int main(void)` of `005button_interrupt.c`, run through `spins`
iterations of its endless loop. -/
def main (spins : Nat) : List Call :=
  let log : List Call := []
  let GpioLed : GPIO_Handle_t := GPIO_Handle_t.declared
  let GpioBtn : GPIO_Handle_t := GPIO_Handle_t.declared
  let GpioLed := memset0 GpioLed
  let GpioBtn := memset0 GpioBtn
  let GpioLed := { GpioLed with pGPIOx := Cell.set GPIOD }
  let GpioLed := { GpioLed with GPIO_PinConfig.GPIO_PinNumber := Cell.set GPIO_PIN_N0_12 }
  let GpioLed := { GpioLed with GPIO_PinConfig.GPIO_PinMode := Cell.set GPIO_MODE_OUT }
  let GpioLed := { GpioLed with GPIO_PinConfig.GPIO_PinOPType := Cell.set GPIO_OP_TYPE_PP }
  let GpioLed := { GpioLed with GPIO_PinConfig.GPIO_PinSpeed := Cell.set GPIO_SPEED_FAST }
  let GpioLed := { GpioLed with GPIO_PinConfig.GPIO_PinPuPdControl := Cell.set GPIO_NO_PUPD }
  let log := log ++ [Call.GPIO_PeriClockControl GPIOD ENABLE]
  let log := log ++ [Call.GPIO_Init GpioLed]
  let GpioBtn := { GpioBtn with pGPIOx := Cell.set GPIOD }
  let GpioBtn := { GpioBtn with GPIO_PinConfig.GPIO_PinNumber := Cell.set GPIO_PIN_N0_5 }
  let GpioBtn := { GpioBtn with GPIO_PinConfig.GPIO_PinMode := Cell.set GPIO_MODE_IT_FT }
  let GpioBtn := { GpioBtn with GPIO_PinConfig.GPIO_PinSpeed := Cell.set GPIO_SPEED_FAST }
  let GpioBtn := { GpioBtn with GPIO_PinConfig.GPIO_PinPuPdControl := Cell.set GPIO_PIN_PU }
  let log := log ++ [Call.GPIO_PeriClockControl GPIOD ENABLE]
  let log := log ++ [Call.GPIO_Init GpioBtn]
  let log := log ++ [Call.GPIO_IRQPriorityConfig IRQ_NO_EXTI5_9 NVIC_IRQ_PRIO15]
  let log := log ++ [Call.GPIO_IRQInterruptConfig IRQ_NO_EXTI5_9 ENABLE]
  main_loop spins log

/-- The function `void EXTI9_5_IRQHandler(void)`: one run of the handler, from
the log `log` on. -/
def EXTI9_5_IRQHandler (log : List Call) : List Call :=
  let log := delay log
  let log := log ++ [Call.GPIO_IRQHandling GPIO_PIN_N0_5]
  let log := log ++ [Call.GPIO_ToggleOutputPin GPIOD GPIO_PIN_N0_12]
  log

end ButtonInterrupt

/-! ## Vocabulary of the properties -/

/-- The calls one iteration of the polling loop is expected to make when the read
returns `ret`: the read, and for a non-zero value a delay and the toggle. -/
def iteration (ret : Nat) : List Call :=
  if ret ≠ 0 then
    [Call.GPIO_ReadFromInputPin GPIOA GPIO_PIN_N0_0 ret, Call.delay 250000,
      Call.GPIO_ToggleOutputPin GPIOD GPIO_PIN_N0_12]
  else
    [Call.GPIO_ReadFromInputPin GPIOA GPIO_PIN_N0_0 ret]

/-- The calls of successive iterations of the polling loop. -/
def iterations : List Nat → List Call
  | [] => []
  | ret :: rets => iteration ret ++ iterations rets

/-- The handles passed to `GPIO_Init` in a log, in the order of the calls. -/
def initHandles : List Call → List GPIO_Handle_t
  | [] => []
  | Call.GPIO_Init h :: log => h :: initHandles log
  | _ :: log => initHandles log

/-- Whether every field of a handle has been written. -/
def GPIO_Handle_t.definite (h : GPIO_Handle_t) : Bool :=
  h.pGPIOx.definite && h.GPIO_PinConfig.GPIO_PinNumber.definite &&
    h.GPIO_PinConfig.GPIO_PinMode.definite && h.GPIO_PinConfig.GPIO_PinSpeed.definite &&
    h.GPIO_PinConfig.GPIO_PinPuPdControl.definite && h.GPIO_PinConfig.GPIO_PinOPType.definite

/-- The port a call of `GPIO_Init`, `GPIO_ReadFromInputPin` or
`GPIO_ToggleOutputPin` operates on; no port for the other calls. -/
def Call.port? : Call → Option Port
  | Call.GPIO_Init h =>
    match h.pGPIOx with
    | Cell.set p => some p
    | _ => none
  | Call.GPIO_ReadFromInputPin p _ _ => some p
  | Call.GPIO_ToggleOutputPin p _ => some p
  | _ => none

/-- Whether a call names port `p`: as the port it operates on or as the port whose
clock it switches. -/
def Call.touches (p : Port) : Call → Bool
  | Call.GPIO_PeriClockControl q _ => decide (q = p)
  | c => decide (c.port? = some p)

/-- The calls `pre` made so far contain a call that enables the clock of port `p`
with no call that disables it afterwards. -/
def ClockEnabledIn (pre : List Call) (p : Port) : Prop :=
  ∃ before between : List Call,
    pre = before ++ Call.GPIO_PeriClockControl p ENABLE :: between ∧
      Call.GPIO_PeriClockControl p DISABLE ∉ between

/-- The modes in which a pin may be read: input and the three interrupt modes. -/
def Mode.isInputOrInterrupt : Mode → Bool
  | Mode.GPIO_MODE_INPUT => true
  | Mode.GPIO_MODE_IT_FT => true
  | Mode.GPIO_MODE_IT_RT => true
  | Mode.GPIO_MODE_IT_RFT => true
  | _ => false

/-- The three interrupt modes. -/
def Mode.isInterrupt : Mode → Bool
  | Mode.GPIO_MODE_IT_FT => true
  | Mode.GPIO_MODE_IT_RT => true
  | Mode.GPIO_MODE_IT_RFT => true
  | _ => false

/-- The calls `pre` made so far contain a `GPIO_Init` of pin `pin` of port `p`
with a mode that satisfies `ok`. -/
def ConfiguredIn (pre : List Call) (p : Port) (pin : Nat) (ok : Mode → Bool) : Prop :=
  ∃ h : GPIO_Handle_t, Call.GPIO_Init h ∈ pre ∧ h.pGPIOx = Cell.set p ∧
    h.GPIO_PinConfig.GPIO_PinNumber = Cell.set pin ∧
    ∃ m : Mode, h.GPIO_PinConfig.GPIO_PinMode = Cell.set m ∧ ok m = true

/-- The pins (port and number) that the `GPIO_Init` calls of a log configure with
a mode and a pull setting that satisfy `ok`. -/
def configuredPins (ok : Mode → PuPd → Bool) : List Call → List (Port × Nat)
  | [] => []
  | Call.GPIO_Init h :: log =>
    match h.pGPIOx, h.GPIO_PinConfig.GPIO_PinNumber, h.GPIO_PinConfig.GPIO_PinMode,
      h.GPIO_PinConfig.GPIO_PinPuPdControl with
    | Cell.set p, Cell.set pin, Cell.set m, Cell.set pupd =>
      if ok m pupd then (p, pin) :: configuredPins ok log else configuredPins ok log
    | _, _, _, _ => configuredPins ok log
  | _ :: log => configuredPins ok log

/-- The pin numbers acknowledged by the `GPIO_IRQHandling` calls of a log. -/
def acknowledgedPins : List Call → List Nat
  | [] => []
  | Call.GPIO_IRQHandling pin :: log => pin :: acknowledgedPins log
  | _ :: log => acknowledgedPins log

/-- The pins toggled by the `GPIO_ToggleOutputPin` calls of a log. -/
def toggledPins : List Call → List (Port × Nat)
  | [] => []
  | Call.GPIO_ToggleOutputPin p pin :: log => (p, pin) :: toggledPins log
  | _ :: log => toggledPins log

/-- The lines and priorities of the `GPIO_IRQPriorityConfig` calls of a log. -/
def priorityCalls : List Call → List (IRQNumber × Nat)
  | [] => []
  | Call.GPIO_IRQPriorityConfig line prio :: log => (line, prio) :: priorityCalls log
  | _ :: log => priorityCalls log

/-- The lines and switch values of the `GPIO_IRQInterruptConfig` calls of a log. -/
def interruptConfigCalls : List Call → List (IRQNumber × Bool)
  | [] => []
  | Call.GPIO_IRQInterruptConfig line en :: log => (line, en) :: interruptConfigCalls log
  | _ :: log => interruptConfigCalls log

/-- The statement "the pin that `main` of the interrupt demo configures as
falling-edge interrupt with pull-up is pin `pin` of port `p`, its interrupt line
is enabled at priority `prio`, and the handler acknowledges pin `pin`", for a run
of `main` through `spins` iterations of its loop. -/
def ButtonIs (p : Port) (pin prio spins : Nat) : Prop :=
  configuredPins (fun m pupd => decide (m = GPIO_MODE_IT_FT ∧ pupd = GPIO_PIN_PU))
      (ButtonInterrupt.main spins) = [(p, pin)] ∧
    (∃ line : IRQNumber, irqOfPin pin = some line ∧
      priorityCalls (ButtonInterrupt.main spins) = [(line, prio)] ∧
      interruptConfigCalls (ButtonInterrupt.main spins) = [(line, ENABLE)]) ∧
    acknowledgedPins (ButtonInterrupt.EXTI9_5_IRQHandler []) = [pin]

/-! ## The output data register -/

/-- Modelled from the spec: the driver function `GPIO_ToggleOutputPin` (the driver
source is not among the sources) on the 32-bit output data register of its port:
it "flips current output level via a single read-modify-write", it "reads,
computes, and writes the full port register". -/
def GPIO_ToggleOutputPin (odr : Nat) (PinNumber : Nat) : Nat :=
  (odr ^^^ (1 <<< PinNumber)) % 4294967296

/-- The output level of pin `pin` in the output data register `odr`. -/
def outputLevel (odr : Nat) (pin : Nat) : Bool := odr.testBit pin

/-- Modelled from the spec: the effect of one call on the output data registers
of the ports.  Only `GPIO_ToggleOutputPin` writes one: reading is "side-effect-free",
acknowledging clears a pending flag, initialising writes the control registers. -/
def Call.onOutput (odr : Port → Nat) : Call → Port → Nat
  | Call.GPIO_ToggleOutputPin p pin => Function.update odr p (MasterMCU.GPIO_ToggleOutputPin (odr p) pin)
  | _ => odr

/-- The output data registers after the calls of a log, in order. -/
def outputAfter (log : List Call) (odr : Port → Nat) : Port → Nat :=
  log.foldl Call.onOutput odr

/-! ## Theorems -/

/-- The loop of `delay`, started `k` steps before its bound, runs its body `k`
more times, leaves the wrap flag alone and stops at the bound. -/
theorem delay_loop_from (k : Nat) : ∀ (i n : Nat) (wrapped : Bool), i + k = 250000 →
    delay_loop i n wrapped = (250000, n + k, wrapped) := by
  induction k with
  | zero =>
    intro i n wrapped h
    rw [delay_loop]
    simp only [Nat.add_zero] at h
    subst h
    simp
  | succ k ih =>
    intro i n wrapped h
    rw [delay_loop]
    have h1 : i < 500000 / 2 := by omega
    have h2 : (i + 1) % 4294967296 = i + 1 := by omega
    have h3 : decide (4294967296 ≤ i + 1) = false := by
      simp only [decide_eq_false_iff_not]
      omega
    rw [if_pos h1, h2, h3, Bool.or_false, ih (i + 1) (n + 1) wrapped (by omega)]
    congr 2
    omega

/-- A run of `delay` appends the record of a call that ran the loop body 250000
times. -/
theorem delay_eq (log : List Call) : delay log = log ++ [Call.delay 250000] := by
  unfold delay
  rw [delay_loop_from 250000 0 0 false (by omega)]

/-- A run of the handler appends a delay, the acknowledge and the toggle. -/
theorem handler_eq (log : List Call) :
    ButtonInterrupt.EXTI9_5_IRQHandler log =
      log ++ [Call.delay 250000, Call.GPIO_IRQHandling GPIO_PIN_N0_5,
        Call.GPIO_ToggleOutputPin GPIOD GPIO_PIN_N0_12] := by
  simp [ButtonInterrupt.EXTI9_5_IRQHandler, delay_eq]

/-- The polling loop appends the calls of its iterations to the log. -/
theorem polling_main_loop_eq (rets : List Nat) :
    ∀ log : List Call, LedButton.main_loop rets log = log ++ iterations rets := by
  induction rets with
  | nil => intro log; simp [LedButton.main_loop, iterations]
  | cons ret rets ih =>
    intro log
    by_cases h : ret = 0
    · simp [LedButton.main_loop, iterations, iteration, h, ih]
    · simp [LedButton.main_loop, iterations, iteration, h, ih, delay_eq]

/-- The calls of the iterations for `rets ++ [ret]`. -/
theorem iterations_append (rets : List Nat) (ret : Nat) :
    iterations (rets ++ [ret]) = iterations rets ++ iteration ret := by
  induction rets with
  | nil => simp [iterations]
  | cons r rets ih => simp [iterations, ih]

/-- The polling `main` makes its four configuration calls and then the calls of
its iterations. -/
theorem polling_main_eq (rets : List Nat) :
    LedButton.main rets = LedButton.main [] ++ iterations rets := by
  simp [LedButton.main, polling_main_loop_eq, iterations]

/-- The empty loop of the interrupt demo makes no call. -/
theorem interrupt_main_loop_eq (spins : Nat) :
    ∀ log : List Call, ButtonInterrupt.main_loop spins log = log := by
  induction spins with
  | zero => intro log; rfl
  | succ spins ih => intro log; simp [ButtonInterrupt.main_loop, ih]

/-- The calls of the interrupt demo do not depend on how long its loop spins. -/
theorem interrupt_main_eq (spins : Nat) :
    ButtonInterrupt.main spins = ButtonInterrupt.main 0 := by
  simp [ButtonInterrupt.main, interrupt_main_loop_eq]

/-- Every call of the polling iterations is the read of A0, a delay or the toggle
of D12. -/
theorem mem_iterations (rets : List Nat) (c : Call) (h : c ∈ iterations rets) :
    (∃ ret, c = Call.GPIO_ReadFromInputPin GPIOA GPIO_PIN_N0_0 ret) ∨
      c = Call.delay 250000 ∨ c = Call.GPIO_ToggleOutputPin GPIOD GPIO_PIN_N0_12 := by
  induction rets with
  | nil => simp [iterations] at h
  | cons ret rets ih =>
    simp only [iterations, List.mem_append] at h
    rcases h with h | h
    · unfold iteration at h
      split at h
      · simp only [List.mem_cons, List.mem_singleton, List.not_mem_nil, or_false] at h
        rcases h with h | h | h
        · exact Or.inl ⟨ret, h⟩
        · exact Or.inr (Or.inl h)
        · exact Or.inr (Or.inr h)
      · simp only [List.mem_singleton] at h
        exact Or.inl ⟨ret, h⟩
    · exact ih h

/-- A clock-enable call among calls that contain no clock-disable call leaves the
clock enabled. -/
theorem clockEnabledIn_of_mem (pre : List Call) (p : Port)
    (hen : Call.GPIO_PeriClockControl p ENABLE ∈ pre)
    (hdis : Call.GPIO_PeriClockControl p DISABLE ∉ pre) : ClockEnabledIn pre p := by
  obtain ⟨before, between, hpre⟩ := List.append_of_mem hen
  refine ⟨before, between, hpre, ?_⟩
  intro hmem
  apply hdis
  rw [hpre]
  simp [hmem]

/-- C10: `delay` terminates on every call (the embedding is a total function): its
loop, started at `i = 0`, stops with the counter at 250000 = 500000 / 2 after
exactly 250000 executions of its body and without any wrap-around of the 32-bit
counter; and the call changes nothing but its own counter: the log of the caller
gains the record of the call and no driver call. -/
theorem delay_terminates_after_250000 :
    delay_loop 0 0 false = (500000 / 2, 250000, false) ∧
      (∀ log : List Call, delay log = log ++ [Call.delay 250000]) ∧
      (∀ log : List Call, driverCalls (delay log) = driverCalls log) := by
  refine ⟨?_, delay_eq, ?_⟩
  · rw [delay_loop_from 250000 0 0 false (by omega)]
  · intro log
    simp [delay_eq, driverCalls, Call.isDriver]

/-- C1: the driver calls of one run of `EXTI9_5_IRQHandler` are exactly the
acknowledge `GPIO_IRQHandling(GPIO_PIN_N0_5)` followed by the toggle
`GPIO_ToggleOutputPin(GPIOD, GPIO_PIN_N0_12)`: each is called exactly once, the
acknowledge first. -/
theorem handler_acknowledges_then_toggles (log : List Call) :
    ∃ run : List Call, ButtonInterrupt.EXTI9_5_IRQHandler log = log ++ run ∧
      driverCalls run =
        [Call.GPIO_IRQHandling GPIO_PIN_N0_5, Call.GPIO_ToggleOutputPin GPIOD GPIO_PIN_N0_12] ∧
      acknowledgedPins run = [GPIO_PIN_N0_5] ∧
      toggledPins run = [(GPIOD, GPIO_PIN_N0_12)] := by
  refine ⟨_, handler_eq log, ?_, ?_, ?_⟩
  · simp [driverCalls, Call.isDriver]
  · simp [acknowledgedPins]
  · simp [toggledPins]

/-- C7: every iteration of the polling loop extends the calls of `main` by the
read of A0 alone when the read returned 0, and by the read, one run of `delay`
and one toggle of D12, in this order, when it returned a non-zero value; its
driver calls are the read and, for a non-zero value, the one toggle. -/
theorem polling_iteration (rets : List Nat) (ret : Nat) :
    ∃ calls : List Call, LedButton.main (rets ++ [ret]) = LedButton.main rets ++ calls ∧
      calls =
        (if ret = 0 then [Call.GPIO_ReadFromInputPin GPIOA GPIO_PIN_N0_0 ret]
         else [Call.GPIO_ReadFromInputPin GPIOA GPIO_PIN_N0_0 ret, Call.delay 250000,
           Call.GPIO_ToggleOutputPin GPIOD GPIO_PIN_N0_12]) ∧
      driverCalls calls =
        Call.GPIO_ReadFromInputPin GPIOA GPIO_PIN_N0_0 ret ::
          (if ret = 0 then [] else [Call.GPIO_ToggleOutputPin GPIOD GPIO_PIN_N0_12]) ∧
      (toggledPins calls).length = (if ret = 0 then 0 else 1) := by
  refine ⟨iteration ret, ?_, ?_, ?_, ?_⟩
  · rw [polling_main_eq (rets ++ [ret]), polling_main_eq rets, iterations_append,
      List.append_assoc]
  · by_cases h : ret = 0 <;> simp [iteration, h]
  · by_cases h : ret = 0 <;> simp [iteration, h, driverCalls, Call.isDriver]
  · by_cases h : ret = 0 <;> simp [iteration, h, toggledPins]

/-- No call of the polling iterations switches a clock. -/
theorem not_clock_mem_iterations (rets : List Nat) (p : Port) (en : Bool) :
    Call.GPIO_PeriClockControl p en ∉ iterations rets := by
  intro h
  rcases mem_iterations rets _ h with ⟨ret, h⟩ | h | h <;> cases h

/-- A call of the polling iterations operates on port A or on port D, if on any. -/
theorem port_of_mem_iterations (rets : List Nat) (c : Call) (p : Port)
    (h : c ∈ iterations rets) (hp : c.port? = some p) : p = GPIOA ∨ p = GPIOD := by
  rcases mem_iterations rets _ h with ⟨ret, h⟩ | h | h <;> subst h <;>
    simp [Call.port?] at hp
  · exact Or.inl hp.symm
  · exact Or.inr hp.symm

/-- The polling `main` never disables a clock. -/
theorem polling_not_disable_mem (rets : List Nat) (p : Port) :
    Call.GPIO_PeriClockControl p DISABLE ∉ LedButton.main rets := by
  rw [polling_main_eq]
  intro h
  rcases List.mem_append.1 h with h | h
  · revert h
    simp [LedButton.main, LedButton.main_loop, DISABLE, ENABLE]
  · exact not_clock_mem_iterations rets p DISABLE h

/-- The `main` of the interrupt demo never disables a clock. -/
theorem interrupt_not_disable_mem (spins : Nat) (p : Port) :
    Call.GPIO_PeriClockControl p DISABLE ∉ ButtonInterrupt.main spins := by
  rw [interrupt_main_eq]
  simp [ButtonInterrupt.main, ButtonInterrupt.main_loop, DISABLE, ENABLE]

/-- In the polling demo every operation on a port comes after the enabling of the
clock of that port. -/
theorem polling_clock_enabled (rets : List Nat) (pre post : List Call) (c : Call) (p : Port)
    (hlog : LedButton.main rets = pre ++ c :: post) (hp : c.port? = some p) :
    ClockEnabledIn pre p := by
  have hdis : Call.GPIO_PeriClockControl p DISABLE ∉ pre := by
    intro h
    apply polling_not_disable_mem rets p
    rw [hlog]
    simp [h]
  apply clockEnabledIn_of_mem pre p _ hdis
  rw [polling_main_eq] at hlog
  simp only [LedButton.main, LedButton.main_loop, List.nil_append, List.cons_append,
    List.singleton_append] at hlog
  rcases pre with _ | ⟨c1, _ | ⟨c2, _ | ⟨c3, _ | ⟨c4, pre⟩⟩⟩⟩
  · simp only [List.nil_append, List.cons.injEq] at hlog
    rw [← hlog.1] at hp
    simp [Call.port?] at hp
  · simp only [List.cons_append, List.nil_append, List.cons.injEq] at hlog
    obtain ⟨h1, h2, -⟩ := hlog
    rw [← h2] at hp
    simp only [Call.port?, Option.some.injEq] at hp
    simp [← h1, ← hp]
  · simp only [List.cons_append, List.nil_append, List.cons.injEq] at hlog
    obtain ⟨-, -, h3, -⟩ := hlog
    rw [← h3] at hp
    simp [Call.port?] at hp
  · simp only [List.cons_append, List.nil_append, List.cons.injEq] at hlog
    obtain ⟨-, -, h3, h4, -⟩ := hlog
    rw [← h4] at hp
    simp only [Call.port?, Option.some.injEq] at hp
    simp [← h3, ← hp]
  · simp only [List.cons_append, List.cons.injEq] at hlog
    obtain ⟨h1, -, h3, -, h5⟩ := hlog
    have hc : c ∈ iterations rets := by
      rw [h5]
      simp
    rcases port_of_mem_iterations rets c p hc hp with h | h
    · simp [← h3, h]
    · simp [← h1, h]

/-- In the interrupt demo every operation of `main` on a port comes after the
enabling of the clock of that port. -/
theorem interrupt_clock_enabled (spins : Nat) (pre post : List Call) (c : Call) (p : Port)
    (hlog : ButtonInterrupt.main spins = pre ++ c :: post) (hp : c.port? = some p) :
    ClockEnabledIn pre p := by
  have hdis : Call.GPIO_PeriClockControl p DISABLE ∉ pre := by
    intro h
    apply interrupt_not_disable_mem spins p
    rw [hlog]
    simp [h]
  apply clockEnabledIn_of_mem pre p _ hdis
  rw [interrupt_main_eq] at hlog
  simp only [ButtonInterrupt.main, ButtonInterrupt.main_loop, List.nil_append, List.cons_append,
    List.singleton_append] at hlog
  rcases pre with _ | ⟨c1, _ | ⟨c2, _ | ⟨c3, _ | ⟨c4, _ | ⟨c5, _ | ⟨c6, pre⟩⟩⟩⟩⟩⟩
  · simp only [List.nil_append, List.cons.injEq] at hlog
    rw [← hlog.1] at hp
    simp [Call.port?] at hp
  · simp only [List.cons_append, List.nil_append, List.cons.injEq] at hlog
    obtain ⟨h1, h2, -⟩ := hlog
    rw [← h2] at hp
    simp only [Call.port?, Option.some.injEq] at hp
    simp [← h1, ← hp]
  · simp only [List.cons_append, List.nil_append, List.cons.injEq] at hlog
    obtain ⟨-, -, h3, -⟩ := hlog
    rw [← h3] at hp
    simp [Call.port?] at hp
  · simp only [List.cons_append, List.nil_append, List.cons.injEq] at hlog
    obtain ⟨h1, -, -, h4, -⟩ := hlog
    rw [← h4] at hp
    simp only [Call.port?, Option.some.injEq] at hp
    simp [← h1, ← hp]
  · simp only [List.cons_append, List.nil_append, List.cons.injEq] at hlog
    obtain ⟨-, -, -, -, h5, -⟩ := hlog
    rw [← h5] at hp
    simp [Call.port?] at hp
  · simp only [List.cons_append, List.nil_append, List.cons.injEq] at hlog
    obtain ⟨-, -, -, -, -, h6, -⟩ := hlog
    rw [← h6] at hp
    simp [Call.port?] at hp
  · simp [List.cons_append] at hlog

/-- C3: in both demo programs, whenever `main` makes a driver call that operates
on a port `p` (a `GPIO_Init` of a handle whose port is `p`, a read or a toggle on
`p`), the calls made before it contain `GPIO_PeriClockControl(p, ENABLE)` with no
`GPIO_PeriClockControl(p, DISABLE)` after it. -/
theorem clock_enabled_before_use (rets : List Nat) (spins : Nat) (pre post : List Call)
    (c : Call) (p : Port)
    (hlog : LedButton.main rets = pre ++ c :: post ∨
      ButtonInterrupt.main spins = pre ++ c :: post)
    (hp : c.port? = some p) : ClockEnabledIn pre p := by
  rcases hlog with hlog | hlog
  · exact polling_clock_enabled rets pre post c p hlog hp
  · exact interrupt_clock_enabled spins pre post c p hlog hp

/-- C3, at the first toggle of the polling demo: the six calls before it contain
the enabling of the clock of port D. -/
theorem clock_enabled_before_use_witness :
    ClockEnabledIn (List.take 6 (LedButton.main [1])) GPIOD :=
  clock_enabled_before_use [1] 0 (List.take 6 (LedButton.main [1])) []
    (Call.GPIO_ToggleOutputPin GPIOD GPIO_PIN_N0_12) GPIOD
    (Or.inl (by simp [LedButton.main, LedButton.main_loop, delay_eq])) rfl

/-- C4: in the polling demo every call of `GPIO_ReadFromInputPin` reads pin 0 of
port A, which an earlier `GPIO_Init` configured in an input or interrupt mode
(in `GPIO_MODE_INPUT`), and every call of `GPIO_ToggleOutputPin` toggles pin 12
of port D, which an earlier `GPIO_Init` configured in `GPIO_MODE_OUT`. -/
theorem polling_pins_configured_before_use (rets : List Nat) (pre post : List Call) (c : Call)
    (hlog : LedButton.main rets = pre ++ c :: post) :
    (∀ (p : Port) (pin ret : Nat), c = Call.GPIO_ReadFromInputPin p pin ret →
      (p = GPIOA ∧ pin = 0) ∧ ConfiguredIn pre p pin Mode.isInputOrInterrupt ∧
        ConfiguredIn pre p pin (fun m => decide (m = GPIO_MODE_INPUT))) ∧
    (∀ (p : Port) (pin : Nat), c = Call.GPIO_ToggleOutputPin p pin →
      (p = GPIOD ∧ pin = 12) ∧ ConfiguredIn pre p pin (fun m => decide (m = GPIO_MODE_OUT))) := by
  rw [polling_main_eq] at hlog
  simp only [LedButton.main, LedButton.main_loop, List.nil_append, List.cons_append,
    List.singleton_append] at hlog
  rcases pre with _ | ⟨c1, _ | ⟨c2, _ | ⟨c3, _ | ⟨c4, pre⟩⟩⟩⟩
  · simp only [List.nil_append, List.cons.injEq] at hlog
    rw [← hlog.1]
    exact ⟨fun _ _ _ h => (by cases h), fun _ _ h => (by cases h)⟩
  · simp only [List.cons_append, List.nil_append, List.cons.injEq] at hlog
    rw [← hlog.2.1]
    exact ⟨fun _ _ _ h => (by cases h), fun _ _ h => (by cases h)⟩
  · simp only [List.cons_append, List.nil_append, List.cons.injEq] at hlog
    rw [← hlog.2.2.1]
    exact ⟨fun _ _ _ h => (by cases h), fun _ _ h => (by cases h)⟩
  · simp only [List.cons_append, List.nil_append, List.cons.injEq] at hlog
    rw [← hlog.2.2.2.1]
    exact ⟨fun _ _ _ h => (by cases h), fun _ _ h => (by cases h)⟩
  · simp only [List.cons_append, List.cons.injEq] at hlog
    obtain ⟨-, h2, -, h4, h5⟩ := hlog
    have hc : c ∈ iterations rets := by
      rw [h5]
      simp
    subst h2 h4
    rcases mem_iterations rets c hc with ⟨ret, h⟩ | h | h <;> subst h
    · refine ⟨?_, fun _ _ h => (by cases h)⟩
      intro p pin r h
      cases h
      refine ⟨⟨rfl, rfl⟩, ?_, ?_⟩
      · exact ⟨_, List.mem_cons_of_mem _ (List.mem_cons_of_mem _ (List.mem_cons_of_mem _
          (List.mem_cons_self _ _))), rfl, rfl, GPIO_MODE_INPUT, rfl, rfl⟩
      · exact ⟨_, List.mem_cons_of_mem _ (List.mem_cons_of_mem _ (List.mem_cons_of_mem _
          (List.mem_cons_self _ _))), rfl, rfl, GPIO_MODE_INPUT, rfl, rfl⟩
    · exact ⟨fun _ _ _ h => (by cases h), fun _ _ h => (by cases h)⟩
    · refine ⟨fun _ _ _ h => (by cases h), ?_⟩
      intro p pin h
      cases h
      refine ⟨⟨rfl, rfl⟩, ?_⟩
      exact ⟨_, List.mem_cons_of_mem _ (List.mem_cons_self _ _), rfl, rfl, GPIO_MODE_OUT, rfl,
        rfl⟩

/-- C4, at the first read and the first toggle of the polling demo. -/
theorem polling_pins_configured_before_use_witness :
    ConfiguredIn (List.take 6 (LedButton.main [1])) GPIOD 12
      (fun m => decide (m = GPIO_MODE_OUT)) :=
  ((polling_pins_configured_before_use [1] (List.take 6 (LedButton.main [1])) []
    (Call.GPIO_ToggleOutputPin GPIOD GPIO_PIN_N0_12)
    (by simp [LedButton.main, LedButton.main_loop, delay_eq])).2 GPIOD 12 rfl).2

/-- C6: in the interrupt demo `main` makes no call at all after
`GPIO_IRQInterruptConfig(IRQ_NO_EXTI5_9, ENABLE)`, however long its loop spins: in
particular none that names port D; a run of the handler does operate on port D. -/
theorem foreground_leaves_port_D_to_handler (spins : Nat) (pre post : List Call)
    (hlog : ButtonInterrupt.main spins =
      pre ++ Call.GPIO_IRQInterruptConfig IRQ_NO_EXTI5_9 ENABLE :: post) :
    post = [] ∧ (∀ c ∈ post, c.touches GPIOD = false) ∧
      (∃ c ∈ ButtonInterrupt.EXTI9_5_IRQHandler [], c.touches GPIOD = true) := by
  have hpost : post = [] := by
    rw [interrupt_main_eq] at hlog
    simp only [ButtonInterrupt.main, ButtonInterrupt.main_loop, List.nil_append,
      List.cons_append, List.singleton_append] at hlog
    rcases pre with _ | ⟨c1, _ | ⟨c2, _ | ⟨c3, _ | ⟨c4, _ | ⟨c5, _ | ⟨c6, pre⟩⟩⟩⟩⟩⟩ <;>
      simp [List.cons_append] at hlog
    exact hlog.2.2.2.2.2
  refine ⟨hpost, ?_, ?_⟩
  · intro c hc
    rw [hpost] at hc
    cases hc
  · refine ⟨Call.GPIO_ToggleOutputPin GPIOD GPIO_PIN_N0_12, ?_, rfl⟩
    rw [handler_eq]
    simp

/-- C6, at the run of `main` through three iterations of its loop: the enabling of
the interrupt line is its last call. -/
theorem foreground_leaves_port_D_to_handler_witness :
    List.drop 6 (ButtonInterrupt.main 3) = [] :=
  (foreground_leaves_port_D_to_handler 3 (List.take 5 (ButtonInterrupt.main 3))
    (List.drop 6 (ButtonInterrupt.main 3))
    (by simp [ButtonInterrupt.main, ButtonInterrupt.main_loop])).1

/-- One toggle flips the level of the pin it names (pins 0 to 31). -/
theorem outputLevel_toggle (odr pin : Nat) (hpin : pin < 32) :
    outputLevel (GPIO_ToggleOutputPin odr pin) pin = !outputLevel odr pin := by
  have e : (4294967296 : Nat) = 2 ^ 32 := by norm_num
  unfold outputLevel GPIO_ToggleOutputPin
  rw [e, Nat.testBit_mod_two_pow, Nat.testBit_xor, Nat.one_shiftLeft, Nat.testBit_two_pow_self]
  simp [hpin]

/-- Two toggles in succession restore the level of the pin they name. -/
theorem outputLevel_toggle_toggle (odr pin : Nat) (hpin : pin < 32) :
    outputLevel (GPIO_ToggleOutputPin (GPIO_ToggleOutputPin odr pin) pin) pin =
      outputLevel odr pin := by
  rw [outputLevel_toggle _ _ hpin, outputLevel_toggle _ _ hpin, Bool.not_not]

/-- C5: on every output data register and for every pin number 0 to 15, one
toggle flips the output level of the pin and two toggles in succession leave it
as it was; so two successive runs of the interrupt handler, and two successive
iterations of the polling loop that both toggle, leave the level of pin D12 as it
was. -/
theorem toggle_twice_restores_level (odr : Port → Nat) (p : Port) (pin ret1 ret2 : Nat)
    (hpin : pin ≤ 15) (h1 : ret1 ≠ 0) (h2 : ret2 ≠ 0) :
    outputLevel (GPIO_ToggleOutputPin (odr p) pin) pin = (!outputLevel (odr p) pin) ∧
    outputLevel (GPIO_ToggleOutputPin (GPIO_ToggleOutputPin (odr p) pin) pin) pin =
      outputLevel (odr p) pin ∧
    outputLevel
        (outputAfter
          (ButtonInterrupt.EXTI9_5_IRQHandler (ButtonInterrupt.EXTI9_5_IRQHandler [])) odr GPIOD)
        GPIO_PIN_N0_12 = outputLevel (odr GPIOD) GPIO_PIN_N0_12 ∧
    outputLevel (outputAfter (LedButton.main_loop [ret1, ret2] []) odr GPIOD) GPIO_PIN_N0_12 =
      outputLevel (odr GPIOD) GPIO_PIN_N0_12 := by
  have hlt : pin < 32 := by omega
  refine ⟨outputLevel_toggle _ _ hlt, outputLevel_toggle_toggle _ _ hlt, ?_, ?_⟩
  · rw [handler_eq, handler_eq]
    simp only [outputAfter, List.nil_append, List.cons_append, List.foldl_cons, List.foldl_nil,
      Call.onOutput, Function.update_same]
    exact outputLevel_toggle_toggle _ _ (by decide)
  · rw [polling_main_loop_eq]
    simp only [iterations, iteration, h1, h2, ne_eq, not_false_eq_true, if_true, outputAfter,
      List.nil_append, List.cons_append, List.append_nil, List.foldl_cons, List.foldl_nil,
      Call.onOutput, Function.update_same]
    exact outputLevel_toggle_toggle _ _ (by decide)

/-- C5, on the register value 0 of port D with pin 12: the first toggle raises the
pin, the second lowers it again. -/
theorem toggle_twice_restores_level_witness :
    outputLevel (GPIO_ToggleOutputPin 0 12) 12 = true ∧
      outputLevel (GPIO_ToggleOutputPin (GPIO_ToggleOutputPin 0 12) 12) 12 = false :=
  ⟨(toggle_twice_restores_level (fun _ => 0) GPIOD 12 1 1 (by decide) (by decide)
      (by decide)).1,
    (toggle_twice_restores_level (fun _ => 0) GPIOD 12 1 1 (by decide) (by decide)
      (by decide)).2.1⟩

/-- C2, as the claim states it: the button of the interrupt demo is not pin 0 of
port A. -/
theorem button_is_not_pin_A0 : ¬ ButtonIs GPIOA 0 15 0 := by
  intro h
  have h1 := h.1
  revert h1
  decide

/-- C2, amended: the pin that `main` of the interrupt demo configures as
falling-edge interrupt with pull-up is pin 5 of port D, its interrupt line
`IRQ_NO_EXTI5_9` is given priority 15 and enabled, and the handler acknowledges
pin number 5. -/
theorem button_is_pin_D5 (spins : Nat) : ButtonIs GPIOD 5 15 spins := by
  unfold ButtonIs
  rw [interrupt_main_eq, handler_eq]
  refine ⟨by decide, ⟨IRQ_NO_EXTI5_9, by decide, by decide, by decide⟩, by decide⟩

/-- The line `IRQ_NO_EXTI5_9` serves exactly the pin numbers 5 to 9. -/
theorem irqOfPin_eq_EXTI5_9 (pin : Nat) :
    irqOfPin pin = some IRQ_NO_EXTI5_9 ↔ 5 ≤ pin ∧ pin ≤ 9 := by
  unfold irqOfPin
  constructor
  · intro h
    split_ifs at h <;> first | omega | cases h
  · intro h
    have h0 : pin ≠ 0 := by omega
    have h1 : pin ≠ 1 := by omega
    have h2 : pin ≠ 2 := by omega
    have h3 : pin ≠ 3 := by omega
    have h4 : pin ≠ 4 := by omega
    simp [h0, h1, h2, h3, h4, h.2]

/-- C8: in the interrupt demo the one pin number that the handler acknowledges is
the number of the one pin that `main` configures in an interrupt mode; the line
that `main` prioritises and enables, `IRQ_NO_EXTI5_9`, is the line that serves
this pin number, and serves the numbers 5 to 9; the priority call comes before
the enable call; and the one pin the handler toggles is the one pin that `main`
configures in output mode, pin 12 of port D. -/
theorem handler_matches_configuration (spins : Nat) :
    (∃ (p : Port) (pin : Nat),
      configuredPins (fun m _ => m.isInterrupt)
        (ButtonInterrupt.main spins) = [(p, pin)] ∧
      acknowledgedPins (ButtonInterrupt.EXTI9_5_IRQHandler []) = [pin] ∧
      pin = GPIO_PIN_N0_5 ∧
      irqOfPin pin = some IRQ_NO_EXTI5_9) ∧
    (∀ pin : Nat, irqOfPin pin = some IRQ_NO_EXTI5_9 ↔ 5 ≤ pin ∧ pin ≤ 9) ∧
    priorityCalls (ButtonInterrupt.main spins) = [(IRQ_NO_EXTI5_9, NVIC_IRQ_PRIO15)] ∧
    interruptConfigCalls (ButtonInterrupt.main spins) = [(IRQ_NO_EXTI5_9, ENABLE)] ∧
    (∃ pre post : List Call,
      ButtonInterrupt.main spins =
        pre ++ Call.GPIO_IRQInterruptConfig IRQ_NO_EXTI5_9 ENABLE :: post ∧
      Call.GPIO_IRQPriorityConfig IRQ_NO_EXTI5_9 NVIC_IRQ_PRIO15 ∈ pre) ∧
    toggledPins (ButtonInterrupt.EXTI9_5_IRQHandler []) = [(GPIOD, GPIO_PIN_N0_12)] ∧
    configuredPins (fun m _ => decide (m = GPIO_MODE_OUT)) (ButtonInterrupt.main spins) =
      [(GPIOD, GPIO_PIN_N0_12)] := by
  rw [interrupt_main_eq, handler_eq]
  refine ⟨⟨GPIOD, 5, by decide, by decide, rfl, by decide⟩, irqOfPin_eq_EXTI5_9, by decide,
    by decide, ?_, by decide, by decide⟩
  exact ⟨List.take 5 (ButtonInterrupt.main 0), [], by decide, by decide⟩

/-- The handles of an appended log. -/
theorem initHandles_append (log1 log2 : List Call) :
    initHandles (log1 ++ log2) = initHandles log1 ++ initHandles log2 := by
  induction log1 with
  | nil => rfl
  | cons c log1 ih => cases c <;> simp [initHandles, ih]

/-- The iterations of the polling loop initialise nothing. -/
theorem initHandles_iterations (rets : List Nat) : initHandles (iterations rets) = [] := by
  induction rets with
  | nil => rfl
  | cons ret rets ih =>
    by_cases h : ret = 0 <;> simp [iterations, iteration, h, initHandles_append, initHandles, ih]

/-- C9, the code at the polling demo: of the two handles that `main` of
`002led_button.c` passes to `GPIO_Init`, the LED handle has every field written,
the button handle has port, pin number, mode, speed and pull setting written but
its output-type field `GPIO_PinOPType` is still indeterminate; the interrupt demo
passes two handles with every field written, the output-type field of its button
handle zeroed by `memset`. -/
theorem polling_button_handle_not_definite (rets : List Nat) (spins : Nat) :
    (∃ led btn : GPIO_Handle_t, initHandles (LedButton.main rets) = [led, btn] ∧
      led.definite = true ∧ btn.definite = false ∧
      btn.GPIO_PinConfig.GPIO_PinOPType = Cell.indeterminate ∧
      btn.pGPIOx = Cell.set GPIOA ∧
      btn.GPIO_PinConfig.GPIO_PinNumber = Cell.set GPIO_PIN_N0_0 ∧
      btn.GPIO_PinConfig.GPIO_PinMode = Cell.set GPIO_MODE_INPUT ∧
      btn.GPIO_PinConfig.GPIO_PinSpeed = Cell.set GPIO_SPEED_FAST ∧
      btn.GPIO_PinConfig.GPIO_PinPuPdControl = Cell.set GPIO_NO_PUPD) ∧
    (∃ led btn : GPIO_Handle_t, initHandles (ButtonInterrupt.main spins) = [led, btn] ∧
      led.definite = true ∧ btn.definite = true ∧
      btn.GPIO_PinConfig.GPIO_PinOPType = Cell.zeroed) := by
  constructor
  · rw [polling_main_eq, initHandles_append, initHandles_iterations, List.append_nil]
    exact ⟨_, _, rfl, by decide, by decide, rfl, rfl, rfl, rfl, rfl, rfl⟩
  · rw [interrupt_main_eq]
    exact ⟨_, _, rfl, by decide, by decide, rfl⟩

end MasterMCU
